import Mathlib

/-!
Verification development for the PublisherAI publishing service.

Shallow embedding of the core of the repository:
  * the destination-requirements validation engine
    (QualityValidator in src/services/CopyrightRegistrar.ts and
    AmazonKDPPublisher.validateFiles in src/services/platforms/AmazonKDPPublisher.ts),
  * the structured document packaging engine
    (FormatConverter in src/services/platforms/AmazonKDPPublisher.ts),
  * the pipeline orchestrator
    (PublishingOrchestrator in src/unnamed/part_003).

Conventions of the embedding:
  * `Buffer` values are modelled by their byte length (a `Nat`), since the code
    only ever inspects `.length` of buffers in the embedded fragments.
  * Timestamps (`new Date()`, `Date.now()`) are elided: no embedded claim
    depends on them, and where a template string interpolates one we use a
    fixed placeholder.
  * `uuidv4()` is modelled by an explicit supply `uuids : Nat → String`:
    the k-th call made during a build returns `uuids k`.
  * JavaScript numbers are modelled by `Nat`/`Int`/`ℚ` as appropriate; the one
    floating-point comparison (the cover aspect-ratio test) is modelled by the
    exact rational comparison, written in cross-multiplied form.
  * Asynchronous fallible calls are modelled with `Except String`; external
    collaborator calls (database, filesystem, AI services) are modelled by
    outcome parameters ("oracles"), since their internals are out of scope.
-/

namespace PublisherAI

/-! ## Data model (src/unnamed/part_002, `types`) -/

inductive PublishingFormat
  | ebook
  | print
  | audiobook
deriving DecidableEq, Repr

inductive DistributionChannel
  | amazon_kdp
  | ingram_spark
  | draft2digital
  | findaway_voices
  | kobo
  | apple_books
  | google_play_books
  | barnes_noble
deriving DecidableEq, Repr

/-- Chapter structure (part_002).  `content` is the body text. -/
structure Chapter where
  id : String
  project_id : String
  chapter_number : Nat
  title : String
  content : String
  word_count : Nat
deriving DecidableEq, Repr

/-- The fields of `BookMetadata` consumed by the embedded code.
`publication_date` is carried as its ISO date string. -/
structure BookMetadata where
  title : String
  subtitle : Option String
  author : String
  language : String
  publisher : String
  description : String
  genre : String
  bisac_categories : List String
  keywords : List String
  publication_date : String
deriving DecidableEq, Repr

inductive Severity
  | critical
  | error
  | warning
deriving DecidableEq, Repr

inductive Impact
  | low
  | medium
  | high
deriving DecidableEq, Repr

structure ValidationError where
  code : String
  message : String
  severity : Severity
  suggestion : Option String
deriving DecidableEq, Repr

structure ValidationWarning where
  code : String
  message : String
  impact : Impact
  suggestion : String
deriving DecidableEq, Repr

/-- Validation verdict (part_002).  `validated_at` is elided (a timestamp).
`quality_score` is an `Int` because the JavaScript expression computing it in
`AmazonKDPPublisher.validateFiles` is not floored and could in principle go
negative. -/
structure ValidationResult where
  valid : Bool
  format : String
  errors : List ValidationError
  warnings : List ValidationWarning
  quality_score : Int
deriving DecidableEq, Repr

inductive EPUBVersion
  | epub2
  | epub3
deriving DecidableEq, Repr

/-- The fields of `EPUBFile` consumed by the validator.  `file` is elided
(only its existence matters), `validation` (the converter-internal stub
result) is elided. -/
structure EPUBFile where
  size : Nat
  format : EPUBVersion
  toc_depth : Nat
  has_cover : Bool
deriving DecidableEq, Repr

/-- MOBI output descriptor; only its presence matters to the orchestrator. -/
structure MOBIFile where
  size : Nat
deriving DecidableEq, Repr

inductive ColorProfile
  | RGB
  | CMYK
deriving DecidableEq, Repr

structure PDFFile where
  size : Nat
  trim_size : String
  page_count : Nat
  bleed : Bool
  color_profile : ColorProfile
deriving DecidableEq, Repr

inductive CoverFormat
  | jpg
  | png
  | tiff
deriving DecidableEq, Repr

/-- The fields of `CoverDesign` consumed by the validator and the submission
phase.  The image buffers are modelled by byte lengths. -/
structure CoverDesign where
  front_cover : Nat
  width : Nat
  height : Nat
  format : CoverFormat
  dpi : Nat
  color_mode : ColorProfile
deriving DecidableEq, Repr

/-! ## Requirements validator (QualityValidator, src/services/CopyrightRegistrar.ts) -/

/-- QualityValidator.calculateQualityScore (CopyrightRegistrar.ts lines 679-702):
start at 100, subtract 20 per critical error, 10 per regular error,
5/3/1 per high/medium/low impact warning, floor at 0 via `Math.max(0, score)`. -/
def calculateQualityScore (errors : List ValidationError)
    (warnings : List ValidationWarning) : Int :=
  let criticalErrors := (errors.filter (fun e => e.severity == Severity.critical)).length
  let regularErrors := (errors.filter (fun e => e.severity == Severity.error)).length
  let highImpactWarnings := (warnings.filter (fun w => w.impact == Impact.high)).length
  let mediumImpactWarnings := (warnings.filter (fun w => w.impact == Impact.medium)).length
  let lowImpactWarnings := (warnings.filter (fun w => w.impact == Impact.low)).length
  max 0 (100 - (criticalErrors : Int) * 20 - (regularErrors : Int) * 10
    - (highImpactWarnings : Int) * 5 - (mediumImpactWarnings : Int) * 3
    - (lowImpactWarnings : Int) * 1)

/-- Modelled from the spec: "Quality score: start at 100; subtract 20 per
critical, 10 per error, 5/3/1 per high/medium/low-impact warning; floor at 0."
This definition follows the spec's words and is compared against the code's
scoring functions. -/
def specQualityScore (errors : List ValidationError)
    (warnings : List ValidationWarning) : Int :=
  let crit := (errors.filter (fun e => e.severity == Severity.critical)).length
  let regular := (errors.filter (fun e => e.severity == Severity.error)).length
  let hi := (warnings.filter (fun w => w.impact == Impact.high)).length
  let med := (warnings.filter (fun w => w.impact == Impact.medium)).length
  let lo := (warnings.filter (fun w => w.impact == Impact.low)).length
  max 0 (100 - (crit : Int) * 20 - (regular : Int) * 10
    - (hi : Int) * 5 - (med : Int) * 3 - (lo : Int) * 1)

/-- QualityValidator.validateMetadata (CopyrightRegistrar.ts lines 522-587).
JavaScript falsiness of a string (`!metadata.title`) is emptiness. -/
def validateMetadata (metadata : BookMetadata) :
    List ValidationError × List ValidationWarning :=
  let errors :=
    (if metadata.title = "" ∨ metadata.title.trim.length = 0 then
      [{ code := "MISSING_TITLE", message := "Book title is required",
         severity := Severity.critical,
         suggestion := some "Add book title to metadata" }]
     else []) ++
    (if metadata.author = "" ∨ metadata.author.trim.length = 0 then
      [{ code := "MISSING_AUTHOR", message := "Author name is required",
         severity := Severity.critical,
         suggestion := some "Add author name to metadata" }]
     else [])
  let warnings :=
    (if metadata.description = "" ∨ metadata.description.length < 150 then
      [{ code := "SHORT_DESCRIPTION",
         message := "Book description should be at least 150 characters",
         impact := Impact.high,
         suggestion := "Expand description for better discoverability" }]
     else []) ++
    (if metadata.description ≠ "" ∧ metadata.description.length > 4000 then
      [{ code := "LONG_DESCRIPTION",
         message := "Description exceeds 4000 characters (Amazon limit)",
         impact := Impact.medium,
         suggestion := "Shorten description to 4000 characters or less" }]
     else []) ++
    (if metadata.bisac_categories = [] then
      [{ code := "NO_CATEGORIES", message := "No BISAC categories assigned",
         impact := Impact.high,
         suggestion := "Add up to 3 BISAC categories for better categorization" }]
     else []) ++
    (if metadata.keywords.length < 7 then
      [{ code := "FEW_KEYWORDS", message := "Less than 7 keywords (Amazon allows 7)",
         impact := Impact.medium,
         suggestion := "Add more relevant keywords (up to 7)" }]
     else [])
  (errors, warnings)

/-- QualityValidator.validateEPUB (CopyrightRegistrar.ts lines 296-373).
The epubcheck step is a no-op in the source (its parser returns empty lists
on every path), so it contributes no diagnostics here. -/
def validateEPUB (epub : EPUBFile) (metadata : BookMetadata) : ValidationResult :=
  let metadataValidation := validateMetadata metadata
  let errors :=
    (if epub.size > 650 * 1024 * 1024 then
      [{ code := "EPUB_TOO_LARGE", message := "EPUB file exceeds 650 MB limit",
         severity := Severity.critical,
         suggestion := some "Reduce image sizes or split into multiple volumes" }]
     else []) ++
    (if epub.has_cover = false then
      [{ code := "MISSING_COVER", message := "EPUB does not contain a cover image",
         severity := Severity.critical,
         suggestion := some "Add cover image to EPUB package" }]
     else []) ++
    metadataValidation.1
  let warnings :=
    (if epub.format = EPUBVersion.epub2 then
      [{ code := "EPUB_OLD_VERSION", message := "EPUB2 is deprecated, EPUB3 recommended",
         impact := Impact.medium,
         suggestion := "Convert to EPUB3 for better compatibility" }]
     else []) ++
    (if epub.toc_depth = 0 then
      [{ code := "NO_TOC", message := "EPUB does not have a table of contents",
         impact := Impact.high,
         suggestion := "Add navigation document for better user experience" }]
     else []) ++
    metadataValidation.2
  { valid := (errors.filter (fun e => e.severity == Severity.critical)).length == 0,
    format := "EPUB",
    errors := errors,
    warnings := warnings,
    quality_score := calculateQualityScore errors warnings }

structure PDFRequirements where
  maxFileSize : Nat
  minPages : Nat
  colorProfile : ColorProfile
deriving DecidableEq, Repr

/-- QualityValidator.getPDFRequirements (CopyrightRegistrar.ts lines 628-647):
a two-entry table; every other channel falls back to the amazon_kdp entry. -/
def getPDFRequirements (channel : DistributionChannel) : PDFRequirements :=
  match channel with
  | DistributionChannel.ingram_spark =>
      { maxFileSize := 500 * 1024 * 1024, minPages := 24,
        colorProfile := ColorProfile.CMYK }
  | _ =>
      { maxFileSize := 650 * 1024 * 1024, minPages := 24,
        colorProfile := ColorProfile.RGB }

/-- QualityValidator.validatePDF (CopyrightRegistrar.ts lines 378-437). -/
def validatePDF (pdf : PDFFile) (channel : DistributionChannel) : ValidationResult :=
  let requirements := getPDFRequirements channel
  let errors :=
    (if pdf.size > requirements.maxFileSize then
      [{ code := "PDF_TOO_LARGE",
         message := "PDF exceeds the size limit for this channel",
         severity := Severity.critical,
         suggestion := some "Reduce image quality or resolution" }]
     else []) ++
    (if pdf.page_count < requirements.minPages then
      [{ code := "TOO_FEW_PAGES",
         message := "PDF has " ++ toString pdf.page_count ++ " pages, minimum "
           ++ toString requirements.minPages ++ " required",
         severity := Severity.error,
         suggestion := some "Add more content or adjust layout" }]
     else [])
  let warnings :=
    (if channel = DistributionChannel.ingram_spark
        ∧ pdf.color_profile ≠ ColorProfile.CMYK then
      [{ code := "WRONG_COLOR_PROFILE",
         message := "IngramSpark recommends CMYK color profile for print",
         impact := Impact.medium,
         suggestion := "Convert PDF to CMYK color space" }]
     else []) ++
    (if channel = DistributionChannel.ingram_spark ∧ pdf.bleed = false then
      [{ code := "NO_BLEED",
         message := "PDF does not include bleed (0.125 inch recommended)",
         impact := Impact.high,
         suggestion := "Add bleed to prevent white edges in print" }]
     else [])
  { valid := (errors.filter (fun e => e.severity == Severity.critical)).length == 0,
    format := "PDF",
    errors := errors,
    warnings := warnings,
    quality_score := calculateQualityScore errors warnings }

structure CoverRequirements where
  minWidth : Nat
  minHeight : Nat
  allowedFormats : List CoverFormat
deriving DecidableEq, Repr

/-- QualityValidator.getCoverRequirements (CopyrightRegistrar.ts lines 649-673):
three entries; every other channel falls back to the amazon_kdp entry. -/
def getCoverRequirements (channel : DistributionChannel) : CoverRequirements :=
  match channel with
  | DistributionChannel.ingram_spark =>
      { minWidth := 2550, minHeight := 3300,
        allowedFormats := [CoverFormat.jpg, CoverFormat.png, CoverFormat.tiff] }
  | DistributionChannel.draft2digital =>
      { minWidth := 1600, minHeight := 2400,
        allowedFormats := [CoverFormat.jpg, CoverFormat.png] }
  | _ =>
      { minWidth := 2560, minHeight := 1600,
        allowedFormats := [CoverFormat.jpg, CoverFormat.tiff] }

/-- QualityValidator.validateCover (CopyrightRegistrar.ts lines 442-517).
The floating-point test `aspectRatio < 0.6 || aspectRatio > 0.7` on
`aspectRatio = width / height` is modelled by the exact rational comparison in
cross-multiplied form. -/
def validateCover (cover : CoverDesign) (channel : DistributionChannel) :
    ValidationResult :=
  let requirements := getCoverRequirements channel
  let errors :=
    (if cover.width < requirements.minWidth ∨ cover.height < requirements.minHeight then
      [{ code := "COVER_TOO_SMALL",
         message := "Cover dimensions " ++ toString cover.width ++ "x"
           ++ toString cover.height ++ " below minimum",
         severity := Severity.critical,
         suggestion := some "Resize cover to the minimum pixel dimensions" }]
     else []) ++
    (if channel = DistributionChannel.ingram_spark ∧ cover.dpi < 300 then
      [{ code := "LOW_DPI",
         message := "Cover DPI " ++ toString cover.dpi
           ++ " is below 300 DPI required for print",
         severity := Severity.critical,
         suggestion := some "Regenerate cover at 300 DPI or higher" }]
     else []) ++
    (if cover.format ∉ requirements.allowedFormats then
      [{ code := "INVALID_FORMAT",
         message := "Cover format not accepted by this channel",
         severity := Severity.error,
         suggestion := some "Convert to an allowed format" }]
     else [])
  let warnings :=
    (if 5 * cover.width < 3 * cover.height ∨ 10 * cover.width > 7 * cover.height then
      [{ code := "UNUSUAL_ASPECT_RATIO",
         message := "Cover aspect ratio is unusual for books",
         impact := Impact.low,
         suggestion := "Standard book covers are ~0.625 aspect ratio (e.g., 1600x2560)" }]
     else []) ++
    (if channel = DistributionChannel.ingram_spark
        ∧ cover.color_mode ≠ ColorProfile.CMYK then
      [{ code := "WRONG_COLOR_MODE",
         message := "IngramSpark recommends CMYK for print covers",
         impact := Impact.medium,
         suggestion := "Convert cover to CMYK color space" }]
     else [])
  { valid := (errors.filter (fun e => e.severity == Severity.critical)).length == 0,
    format := "Cover Image",
    errors := errors,
    warnings := warnings,
    quality_score := calculateQualityScore errors warnings }

/-! ## Amazon KDP publisher (src/services/platforms/AmazonKDPPublisher.ts) -/

/-- Submission request (part_002).  `cover` and `manuscript` are buffers,
modelled by byte length. -/
structure SubmissionRequest where
  isbn : String
  title : String
  author : String
  description : String
  categories : List String
  keywords : List String
  cover : Nat
  manuscript : Nat
  price : ℚ
  territories : List String
  drm_enabled : Bool
deriving DecidableEq, Repr

inductive SubmissionStatus
  | ready_for_upload
  | error
deriving DecidableEq, Repr

/-- Submission result (part_002).  `estimated_review_time` in days. -/
structure SubmissionResult where
  submission_id : String
  platform : DistributionChannel
  status : SubmissionStatus
  instructions : String
  upload_url : Option String
  estimated_review_time : Option Nat
deriving DecidableEq, Repr

/-- AmazonKDPPublisher.validateFiles (AmazonKDPPublisher.ts lines 142-208).
Note that its `quality_score` is `100 - errors.length * 10 - warnings.length * 5`,
computed directly rather than through `calculateQualityScore`. -/
def validateFiles (request : SubmissionRequest) : ValidationResult :=
  let errors :=
    (if request.manuscript > 650 * 1024 * 1024 then
      [{ code := "MANUSCRIPT_TOO_LARGE", message := "Manuscript exceeds 650 MB limit",
         severity := Severity.critical, suggestion := none }]
     else []) ++
    (if request.cover = 0 then
      [{ code := "MISSING_COVER", message := "Cover image is required",
         severity := Severity.critical, suggestion := none }]
     else []) ++
    (if request.title = "" then
      [{ code := "MISSING_TITLE", message := "Title is required",
         severity := Severity.critical, suggestion := none }]
     else []) ++
    (if request.author = "" then
      [{ code := "MISSING_AUTHOR", message := "Author is required",
         severity := Severity.critical, suggestion := none }]
     else [])
  let warnings :=
    (if request.categories.length > 2 then
      [{ code := "TOO_MANY_CATEGORIES", message := "Amazon KDP allows only 2 categories",
         impact := Impact.medium, suggestion := "" }]
     else []) ++
    (if request.keywords.length > 7 then
      [{ code := "TOO_MANY_KEYWORDS", message := "Amazon KDP allows only 7 keywords",
         impact := Impact.low, suggestion := "" }]
     else [])
  { valid := (errors.filter (fun e => e.severity == Severity.critical)).length == 0,
    format := "KDP Submission",
    errors := errors,
    warnings := warnings,
    quality_score := 100 - (errors.length : Int) * 10 - (warnings.length : Int) * 5 }

/-- AmazonKDPPublisher.submitBook (AmazonKDPPublisher.ts lines 57-103).
`ioError` models a thrown error from the filesystem/database steps
(`prepareSubmissionPackage`, `saveSubmissionRecord`); the surrounding
try/catch re-wraps any such error as `KDP submission failed: ...` and
re-throws it.  The generated submission id (`kdp_` + timestamp) and the long
upload-instructions text are replaced by fixed placeholders; no claim
depends on them. -/
def submitBook (request : SubmissionRequest) (ioError : Option String) :
    Except String SubmissionResult :=
  let validation := validateFiles request
  if validation.valid = false then
    match validation.errors.filter (fun e => e.severity == Severity.critical) with
    | criticalHead :: _ =>
        Except.ok
          { submission_id := "", platform := DistributionChannel.amazon_kdp,
            status := SubmissionStatus.error,
            instructions := "Validation failed: " ++ criticalHead.message,
            upload_url := none, estimated_review_time := none }
    | [] =>
        match ioError with
        | some msg => Except.error ("KDP submission failed: " ++ msg)
        | none =>
            Except.ok
              { submission_id := "kdp_submission",
                platform := DistributionChannel.amazon_kdp,
                status := SubmissionStatus.ready_for_upload,
                instructions := "=== Amazon KDP Upload Instructions ===",
                upload_url := some "https://kdp.amazon.com/en_US/",
                estimated_review_time := some 3 }
  else
    match ioError with
    | some msg => Except.error ("KDP submission failed: " ++ msg)
    | none =>
        Except.ok
          { submission_id := "kdp_submission",
            platform := DistributionChannel.amazon_kdp,
            status := SubmissionStatus.ready_for_upload,
            instructions := "=== Amazon KDP Upload Instructions ===",
            upload_url := some "https://kdp.amazon.com/en_US/",
            estimated_review_time := some 3 }

/-! ## Packaging engine (FormatConverter, src/services/platforms/AmazonKDPPublisher.ts)

The EPUB archive and its internal documents are modelled structurally: one
zip-entry atom per `zip.file(...)` call in `convertToEPUB`, and one record
field per template slot in `generateContentOPF` / `generateTocNCX` /
`generateNavXHTML`.  The only parametrized family of names is
`chapter{n}.xhtml`, modelled by the `chapterXHTML n` constructor. -/

/-- One step of FormatConverter.escapeXML: the entity for a single
markup-significant character. -/
def escapeChar (c : Char) : String :=
  if c = '&' then "&amp;"
  else if c = '<' then "&lt;"
  else if c = '>' then "&gt;"
  else if c = '"' then "&quot;"
  else if c = Char.ofNat 39 then "&apos;"
  else String.singleton c

/-- FormatConverter.escapeXML (AmazonKDPPublisher.ts lines 819-826): the
chain of five global single-character replaces
(`& → &amp;`, `< → &lt;`, `> → &gt;`, `" → &quot;`, `' → &apos;`).
Because each pattern is a single character and no later pattern occurs in an
earlier replacement text, the sequential chain equals this character-wise
escape (written so that it evaluates by kernel reduction). -/
def escapeXML (text : String) : String :=
  String.join (text.data.map escapeChar)

inductive Compression
  | store
  | deflate
deriving DecidableEq, Repr

/-- Archive entry names created by `convertToEPUB`.  Each constructor stands
for the literal path used in the source; `chapterXHTML n` stands for
`OEBPS/chapter{n}.xhtml`. -/
inductive ZipPath
  | mimetype
  | containerXML
  | contentOPF
  | tocNCX
  | navXHTML
  | stylesCSS
  | coverJPG
  | coverXHTML
  | chapterXHTML (n : Nat)
deriving DecidableEq, Repr

structure ZipEntry where
  path : ZipPath
  compression : Compression
deriving DecidableEq, Repr

/-- Manifest `<item>` of the package document.  `href` is stored resolved
against the `OEBPS/` root, as a `ZipPath`, so that "references a file in the
archive" is plain membership. -/
structure ManifestItem where
  id : String
  href : ZipPath
  mediaType : String
  properties : Option String
deriving DecidableEq, Repr

/-- Spine `<itemref>` of the package document. -/
inductive SpineRef
  | cover
  | chapter (n : Nat)
deriving DecidableEq, Repr

/-- Structural model of the `content.opf` string built by
FormatConverter.generateContentOPF (AmazonKDPPublisher.ts lines 655-689):
the metadata block as (element, text) pairs in template order, the manifest
item list, and the spine itemref list. -/
structure ContentOPF where
  uniqueIdentifierAttr : String
  metadataFields : List (String × String)
  manifest : List ManifestItem
  spineToc : String
  spine : List SpineRef
deriving DecidableEq, Repr

structure NavPoint where
  id : String
  playOrder : Nat
  label : String
  src : ZipPath
deriving DecidableEq, Repr

/-- Structural model of the `toc.ncx` string built by
FormatConverter.generateTocNCX (AmazonKDPPublisher.ts lines 691-711). -/
structure TocNCX where
  uid : String
  depth : Nat
  docTitle : String
  docAuthor : String
  navMap : List NavPoint
deriving DecidableEq, Repr

/-- FormatConverter.generateContentOPF.  `uuid` is the value of the single
`uuidv4()` call made inside the function; `now` stands for the
`dcterms:modified` timestamp. -/
def generateContentOPF (uuid : String) (metadata : BookMetadata)
    (chapters : List Chapter) (now : String) : ContentOPF :=
  let chapterManifest := (List.range chapters.length).map (fun i =>
    ({ id := "chapter" ++ toString (i + 1), href := ZipPath.chapterXHTML (i + 1),
       mediaType := "application/xhtml+xml", properties := none } : ManifestItem))
  let chapterSpine := (List.range chapters.length).map (fun i =>
    SpineRef.chapter (i + 1))
  { uniqueIdentifierAttr := "BookID",
    metadataFields :=
      [("dc:identifier", "urn:uuid:" ++ uuid),
       ("dc:title", escapeXML metadata.title),
       ("dc:creator", escapeXML metadata.author),
       ("dc:language", metadata.language),
       ("dc:publisher", escapeXML metadata.publisher),
       ("dc:date", metadata.publication_date),
       ("dc:description", escapeXML metadata.description),
       ("meta dcterms:modified", now)],
    manifest :=
      [{ id := "nav", href := ZipPath.navXHTML,
         mediaType := "application/xhtml+xml", properties := some "nav" },
       { id := "ncx", href := ZipPath.tocNCX,
         mediaType := "application/x-dtbncx+xml", properties := none },
       { id := "cover-image", href := ZipPath.coverJPG,
         mediaType := "image/jpeg", properties := some "cover-image" },
       { id := "cover", href := ZipPath.coverXHTML,
         mediaType := "application/xhtml+xml", properties := none },
       { id := "css", href := ZipPath.stylesCSS,
         mediaType := "text/css", properties := none }]
      ++ chapterManifest,
    spineToc := "ncx",
    spine := SpineRef.cover :: chapterSpine }

/-- FormatConverter.generateTocNCX.  `uuid` is the value of the single
`uuidv4()` call made inside the function (independent of the one in
`generateContentOPF`). -/
def generateTocNCX (uuid : String) (metadata : BookMetadata)
    (chapters : List Chapter) : TocNCX :=
  { uid := "urn:uuid:" ++ uuid,
    depth := 1,
    docTitle := escapeXML metadata.title,
    docAuthor := escapeXML metadata.author,
    navMap := chapters.mapIdx (fun i chapter =>
      { id := "chapter" ++ toString (i + 1), playOrder := i + 1,
        label := escapeXML chapter.title, src := ZipPath.chapterXHTML (i + 1) }) }

/-- FormatConverter.generateNavXHTML (AmazonKDPPublisher.ts lines 713-733):
the ordered `<li>` list of the navigation document, as (label, href) pairs. -/
def generateNavXHTML (chapters : List Chapter) : List (String × ZipPath) :=
  chapters.mapIdx (fun i chapter =>
    (escapeXML chapter.title, ZipPath.chapterXHTML (i + 1)))

/-- Result of one `convertToEPUB` build: the archive entry list in creation
order with per-entry compression, the structural package documents, and the
descriptor fields of the returned `EPUBFile` record (its byte buffer,
size and converter-internal validation stub are elided). -/
structure EPUBBuild where
  entries : List ZipEntry
  opf : ContentOPF
  ncx : TocNCX
  nav : List (String × ZipPath)
  format : String
  toc_depth : Nat
  has_cover : Bool
deriving DecidableEq, Repr

/-- Body of FormatConverter.convertToEPUB (AmazonKDPPublisher.ts lines
396-478), in source order:
1. `mimetype` first, explicitly stored uncompressed (`compression: 'STORE'`);
2. `META-INF/container.xml`;
3-7. the OEBPS documents (`content.opf`, `toc.ncx`, `nav.xhtml`, `styles.css`);
8. `cover.jpg` and `cover.xhtml`, only when a cover was supplied;
9. one `chapter{i+1}.xhtml` per input chapter, numbered by list index.
All entries other than `mimetype` take the archive-level `DEFLATE`
compression passed to `zip.generateAsync`.  The function performs no
validation of the chapter list. -/
def buildEPUB (chapters : List Chapter) (metadata : BookMetadata)
    (cover : Option CoverDesign) (uuids : Nat → String) (now : String) :
    EPUBBuild :=
  let contentOPF := generateContentOPF (uuids 0) metadata chapters now
  let tocNCX := generateTocNCX (uuids 1) metadata chapters
  let navXHTML := generateNavXHTML chapters
  { entries :=
      [{ path := ZipPath.mimetype, compression := Compression.store },
       { path := ZipPath.containerXML, compression := Compression.deflate },
       { path := ZipPath.contentOPF, compression := Compression.deflate },
       { path := ZipPath.tocNCX, compression := Compression.deflate },
       { path := ZipPath.navXHTML, compression := Compression.deflate },
       { path := ZipPath.stylesCSS, compression := Compression.deflate }]
      ++ (match cover with
          | some _ =>
              [{ path := ZipPath.coverJPG, compression := Compression.deflate },
               { path := ZipPath.coverXHTML, compression := Compression.deflate }]
          | none => [])
      ++ (List.range chapters.length).map (fun i =>
          { path := ZipPath.chapterXHTML (i + 1), compression := Compression.deflate }),
    opf := contentOPF,
    ncx := tocNCX,
    nav := navXHTML,
    format := "epub3",
    toc_depth := 1,
    has_cover := cover.isSome }

/-- FormatConverter.convertToEPUB: the try/catch wrapper around `buildEPUB`.
Every throw site inside the try block is an I/O or library call
(zip generation, file write); the embedded computation itself has no failure
path — in particular there is no validation of chapter ordinals or of
emptiness — so the result is always `Except.ok`. -/
def convertToEPUB (chapters : List Chapter) (metadata : BookMetadata)
    (cover : Option CoverDesign) (uuids : Nat → String) (now : String) :
    Except String EPUBBuild :=
  Except.ok (buildEPUB chapters metadata cover uuids now)

/-! ## Pipeline orchestrator (PublishingOrchestrator, src/unnamed/part_003) -/

inductive PhaseName
  | isbn_acquisition
  | copyright_registration
  | lccn_application
  | format_conversion
  | cover_generation
  | metadata_optimization
  | quality_validation
  | platform_submission
deriving DecidableEq, Repr

/-- The string key of each phase, as used for `current_phase.name` and in
event payloads. -/
def phaseNameStr : PhaseName → String
  | PhaseName.isbn_acquisition => "isbn_acquisition"
  | PhaseName.copyright_registration => "copyright_registration"
  | PhaseName.lccn_application => "lccn_application"
  | PhaseName.format_conversion => "format_conversion"
  | PhaseName.cover_generation => "cover_generation"
  | PhaseName.metadata_optimization => "metadata_optimization"
  | PhaseName.quality_validation => "quality_validation"
  | PhaseName.platform_submission => "platform_submission"

/-- PublishingOrchestrator.getPhasePercentage (part_003 lines 420-433).
The `|| 0` fallback of the record lookup is unreachable: every phase key is
in the table. -/
def getPhasePercentage : PhaseName → Nat
  | PhaseName.isbn_acquisition => 10
  | PhaseName.copyright_registration => 20
  | PhaseName.lccn_application => 30
  | PhaseName.format_conversion => 50
  | PhaseName.cover_generation => 65
  | PhaseName.metadata_optimization => 75
  | PhaseName.quality_validation => 85
  | PhaseName.platform_submission => 100

/-- The fixed order in which `publishBook` runs its phases. -/
def phaseOrder : List PhaseName :=
  [PhaseName.isbn_acquisition, PhaseName.copyright_registration,
   PhaseName.lccn_application, PhaseName.format_conversion,
   PhaseName.cover_generation, PhaseName.metadata_optimization,
   PhaseName.quality_validation, PhaseName.platform_submission]

inductive PhaseStatus
  | pending
  | in_progress
  | completed
  | failed
deriving DecidableEq, Repr

/-- PublishingPhaseStatus record as it stands at the end of the call
(timestamps elided).  The record is pushed with status `in_progress` and
mutated in place by `runPhase`; the model keeps its final state. -/
structure PhaseRecord where
  phase : PhaseName
  status : PhaseStatus
  progress : Nat
  message : Option String
deriving DecidableEq, Repr

/-- Events emitted on the orchestrator's EventEmitter (timestamps and the
constant `type` tag elided). -/
inductive Event
  | progress (phase : PhaseName) (progressPct : Nat) (message : String)
  | error (phase : PhaseName) (message : String)
deriving DecidableEq, Repr

/-- PublishingPipeline state (part_002): phase records, current phase name,
overall progress, plus the trace of emitted events. -/
structure Pipeline where
  project_id : String
  current_phase_name : String
  progress_percentage : Nat
  phases : List PhaseRecord
  events : List Event
deriving Repr

/-- PublishingOrchestrator.runPhase (part_003 lines 354-415): push an
in-progress record, emit a start progress event, run the handler; on success
mark the record completed (progress 100), update overall progress to the
phase's percentage and emit a completion progress event; on a thrown error
mark the record failed with the message, emit an error event and re-throw. -/
def runPhase {α : Type} (pipeline : Pipeline) (phase : PhaseName)
    (handler : Except String α) : Pipeline × Except String α :=
  let startEvent := Event.progress phase (getPhasePercentage phase)
    ("Starting " ++ phaseNameStr phase ++ "...")
  match handler with
  | Except.ok result =>
      ({ pipeline with
          current_phase_name := phaseNameStr phase,
          phases := pipeline.phases ++
            [{ phase := phase, status := PhaseStatus.completed, progress := 100,
               message := none }],
          progress_percentage := getPhasePercentage phase,
          events := pipeline.events ++
            [startEvent,
             Event.progress phase (getPhasePercentage phase)
               ("Completed " ++ phaseNameStr phase)] },
        Except.ok result)
  | Except.error msg =>
      ({ pipeline with
          current_phase_name := phaseNameStr phase,
          phases := pipeline.phases ++
            [{ phase := phase, status := PhaseStatus.failed, progress := 0,
               message := some msg }],
          events := pipeline.events ++ [startEvent, Event.error phase msg] },
        Except.error msg)

/-- The format outputs accumulated by the format_conversion phase.  The MOBI
output is produced alongside the EPUB but, notably, is never passed to the
quality_validation phase. -/
structure FormatOutputs where
  epub : Option EPUBFile
  mobi : Option MOBIFile
  pdf : Option PDFFile
deriving DecidableEq, Repr

/-- Body of the quality_validation phase (part_003 lines 238-275): validate
the EPUB against the optimized metadata, the PDF against the fixed channel
`ingram_spark`, the cover against the fixed channel `amazon_kdp`; the
requested distribution channels are not consulted.  If any collected verdict
has `valid = false` the phase throws. -/
def qualityValidationHandler (formatOutputs : FormatOutputs)
    (coverDesign : Option CoverDesign) (optimizedMetadata : BookMetadata) :
    Except String (List ValidationResult) :=
  let validations :=
    (match formatOutputs.epub with
     | some epub => [validateEPUB epub optimizedMetadata]
     | none => []) ++
    (match formatOutputs.pdf with
     | some pdf => [validatePDF pdf DistributionChannel.ingram_spark]
     | none => []) ++
    (match coverDesign with
     | some cover => [validateCover cover DistributionChannel.amazon_kdp]
     | none => [])
  if validations.any (fun v => !v.valid) then
    Except.error "Quality validation failed with critical errors"
  else
    Except.ok validations

/-- The platform publishers registered in the orchestrator's constructor
(part_003 lines 53-79): exactly amazon_kdp, ingram_spark, draft2digital and
findaway_voices.  `this.publishers[channel]` is undefined for every other
channel. -/
def publishersHave : DistributionChannel → Bool
  | DistributionChannel.amazon_kdp => true
  | DistributionChannel.ingram_spark => true
  | DistributionChannel.draft2digital => true
  | DistributionChannel.findaway_voices => true
  | _ => false

/-- Body of the platform_submission phase (part_003 lines 280-312): a
sequential loop over the requested channels.  Channels with no registered
publisher are skipped (`continue`) with only a log warning.  For the others,
`submit channel` models `publisher.submitBook(submissionRequest)`; a thrown
error aborts the loop (and with it the phase), a returned result is pushed
onto the collected list. -/
def platformSubmissionHandler :
    List DistributionChannel → (DistributionChannel → Except String SubmissionResult) →
    Except String (List SubmissionResult)
  | [], _ => Except.ok []
  | channel :: rest, submit =>
      if publishersHave channel then
        match submit channel with
        | Except.error e => Except.error e
        | Except.ok submission =>
            (platformSubmissionHandler rest submit).map (fun l => submission :: l)
      else
        platformSubmissionHandler rest submit

/-- Cost constants from src/config (default values; env-overridable). -/
structure CostsConfig where
  isbn_single : ℚ
  copyright_registration : ℚ
  lccn : ℚ
  cover_generation : ℚ
deriving Repr

structure CostBreakdown where
  isbn_costs : ℚ
  copyright_costs : ℚ
  lccn_costs : ℚ
  cover_design_costs : ℚ
  format_conversion_costs : ℚ
  platform_submission_costs : ℚ
  total : ℚ
deriving Repr

/-- PublishingOrchestrator.calculateCosts (part_003 lines 438-454).
`Object.values(costs).reduce(...)` sums the six component fields plus the
initial `total: 0`. -/
def calculateCosts (cfg : CostsConfig) (formats : List PublishingFormat) :
    CostBreakdown :=
  let isbn_costs : ℚ := (formats.length : ℚ) * cfg.isbn_single
  { isbn_costs := isbn_costs,
    copyright_costs := cfg.copyright_registration,
    lccn_costs := cfg.lccn,
    cover_design_costs := cfg.cover_generation,
    format_conversion_costs := 0,
    platform_submission_costs := 0,
    total := isbn_costs + cfg.copyright_registration + cfg.lccn
      + cfg.cover_generation + 0 + 0 + 0 }

inductive ProjectStatus
  | draft
  | submitting
  | under_review
  | published
  | error
deriving DecidableEq, Repr

/-- PublishingProject record (part_002; timestamps and the generated uuid id
elided to placeholders). -/
structure PublishingProject where
  id : String
  prose_project_id : String
  title : String
  author : String
  formats : List PublishingFormat
  distribution_channels : List DistributionChannel
  status : ProjectStatus
  total_cost : ℚ
deriving Repr

/-- Parameters of PublishingOrchestrator.publishBook. -/
structure PublishParams where
  project_id : String
  title : String
  author : String
  chapters : List Chapter
  metadata : BookMetadata
  formats : List PublishingFormat
  distribution_channels : List DistributionChannel

/-- Outcomes of the external collaborator calls made by the phase bodies.
Phases 1-3 and 5-6 are thin wrappers around out-of-scope services
(ISBNManager, CopyrightRegistrar, LCCNManager, CoverDesigner,
MetadataOptimizer), and the format_conversion phase writes files and shells
out to Calibre; each is abstracted by its outcome.  `submit` gives the
outcome of `publisher.submitBook` per registered channel. -/
structure CollabOutcomes where
  isbn : Except String Unit
  copyright : Except String Unit
  lccn : Except String Unit
  formatConv : Except String FormatOutputs
  cover : Except String CoverDesign
  optimize : Except String BookMetadata
  submit : DistributionChannel → Except String SubmissionResult

/-- PublishingOrchestrator.publishBook (part_003 lines 90-349): run the eight
phases strictly in order through `runPhase`; any phase failure propagates to
the catch block, which wraps the message with the current phase name and
re-throws; on success build and return the project record with status
`published`. -/
def publishBook (params : PublishParams) (collab : CollabOutcomes)
    (cfg : CostsConfig) : Pipeline × Except String PublishingProject :=
  let pipeline : Pipeline :=
    { project_id := params.project_id, current_phase_name := "Initializing",
      progress_percentage := 0, phases := [], events := [] }
  match runPhase pipeline PhaseName.isbn_acquisition collab.isbn with
  | (pl, Except.error e) =>
      (pl, Except.error ("Publishing failed at " ++ pl.current_phase_name ++ ": " ++ e))
  | (pl, Except.ok _) =>
  match runPhase pl PhaseName.copyright_registration collab.copyright with
  | (pl, Except.error e) =>
      (pl, Except.error ("Publishing failed at " ++ pl.current_phase_name ++ ": " ++ e))
  | (pl, Except.ok _) =>
  match runPhase pl PhaseName.lccn_application collab.lccn with
  | (pl, Except.error e) =>
      (pl, Except.error ("Publishing failed at " ++ pl.current_phase_name ++ ": " ++ e))
  | (pl, Except.ok _) =>
  match runPhase pl PhaseName.format_conversion collab.formatConv with
  | (pl, Except.error e) =>
      (pl, Except.error ("Publishing failed at " ++ pl.current_phase_name ++ ": " ++ e))
  | (pl, Except.ok formatOutputs) =>
  match runPhase pl PhaseName.cover_generation collab.cover with
  | (pl, Except.error e) =>
      (pl, Except.error ("Publishing failed at " ++ pl.current_phase_name ++ ": " ++ e))
  | (pl, Except.ok coverDesign) =>
  match runPhase pl PhaseName.metadata_optimization collab.optimize with
  | (pl, Except.error e) =>
      (pl, Except.error ("Publishing failed at " ++ pl.current_phase_name ++ ": " ++ e))
  | (pl, Except.ok optimizedMetadata) =>
  match runPhase pl PhaseName.quality_validation
      (qualityValidationHandler formatOutputs (some coverDesign) optimizedMetadata) with
  | (pl, Except.error e) =>
      (pl, Except.error ("Publishing failed at " ++ pl.current_phase_name ++ ": " ++ e))
  | (pl, Except.ok _) =>
  match runPhase pl PhaseName.platform_submission
      (platformSubmissionHandler params.distribution_channels collab.submit) with
  | (pl, Except.error e) =>
      (pl, Except.error ("Publishing failed at " ++ pl.current_phase_name ++ ": " ++ e))
  | (pl, Except.ok _) =>
      (pl, Except.ok
        { id := "project", prose_project_id := params.project_id,
          title := params.metadata.title, author := params.metadata.author,
          formats := params.formats,
          distribution_channels := params.distribution_channels,
          status := ProjectStatus.published,
          total_cost := (calculateCosts cfg params.formats).total })

/-! ## Shared helpers for the claim statements -/

/-- Boolean success test for `Except` results. -/
def exceptIsOk {ε α : Type _} : Except ε α → Bool
  | Except.ok _ => true
  | Except.error _ => false

/-- Well-formedness of chapter ordinals: the `chapter_number` fields, in list
order, are exactly 1, 2, ..., n (no gaps, no duplicates, no reordering). -/
def chaptersContiguous (chapters : List Chapter) : Prop :=
  chapters.map (fun c => c.chapter_number) = List.range' 1 chapters.length

/-- The archive paths of a build, in creation order. -/
def entryPaths (b : EPUBBuild) : List ZipPath :=
  b.entries.map (fun e => e.path)

/-- The manifest hrefs of a package document, in listing order. -/
def manifestHrefs (opf : ContentOPF) : List ZipPath :=
  opf.manifest.map (fun item => item.href)

/-- The chapter numbers carried by the chapter entries of the archive, in
creation order. -/
def chapterEntryNumbers (b : EPUBBuild) : List Nat :=
  b.entries.filterMap (fun e =>
    match e.path with
    | ZipPath.chapterXHTML n => some n
    | _ => none)

/-- The ordinal (`chapter_number`) of the input chapter referenced by each
chapter itemref of a spine, in spine order.  `SpineRef.chapter n` references
`chapter{n}.xhtml`, which displays the (n-1)-th input chapter. -/
def spineChapterOrdinals (chapters : List Chapter) (spine : List SpineRef) :
    List Nat :=
  spine.filterMap (fun r =>
    match r with
    | SpineRef.cover => none
    | SpineRef.chapter n => (chapters.get? (n - 1)).map (fun c => c.chapter_number))

theorem filterMap_all_some {α γ : Type _} (f : α → Option γ) (g : α → γ)
    (l : List α) (h : ∀ x ∈ l, f x = some (g x)) : l.filterMap f = l.map g := by
  induction l with
  | nil => rfl
  | cons a t ih =>
      rw [List.filterMap_cons, h a (List.mem_cons_self a t), List.map_cons,
        ih (fun x hx => h x (List.mem_cons_of_mem a hx))]

/-- Sample metadata used by concrete instances. -/
def mdSample : BookMetadata :=
  { title := "Sample Title", subtitle := none, author := "Sample Author",
    language := "en", publisher := "Sample Press", description := "A sample.",
    genre := "Fiction", bisac_categories := [], keywords := [],
    publication_date := "2024-01-01" }

/-- Sample uuid supply: the k-th `uuidv4()` draw is the decimal numeral of k
(distinct draws are distinct, as for real uuids). -/
def uuidSupplySample : Nat → String := fun n => toString n

/-! ## Claim C9: quality scoring -/

/-- Concrete submission request: cover buffer empty (one critical
diagnostic), everything else fine. -/
def c9Request : SubmissionRequest :=
  { isbn := "", title := "T", author := "A", description := "", categories := [],
    keywords := [], cover := 0, manuscript := 1000, price := 10,
    territories := ["US"], drm_enabled := false }

/-- Claim C9, counterexample.  The claim says every validation verdict's
quality score follows the 100 − 20·critical − 10·error − 5/3/1·warning
formula floored at 0.  `AmazonKDPPublisher.validateFiles` produces a verdict
with one critical diagnostic and scores it 90 (it computes
100 − 10·#errors − 5·#warnings with no severity weighting), while the
claimed formula gives 80. -/
theorem c9_counterexample :
    (validateFiles c9Request).quality_score = 90 ∧
    specQualityScore (validateFiles c9Request).errors (validateFiles c9Request).warnings = 80 ∧
    (validateFiles c9Request).errors.filter
      (fun e => e.severity == Severity.critical) ≠ [] := by
  decide

/-- Claim C9 (amended): verdicts scored through
`QualityValidator.calculateQualityScore` (those of validateEPUB, validatePDF
and validateCover) follow the claimed formula — 100 minus 20 per critical,
10 per error, 5/3/1 per high/medium/low-impact warning, floored at 0 — and
therefore always lie in [0, 100]; `AmazonKDPPublisher.validateFiles` instead
scores its verdict as 100 − 10·#errors − 5·#warnings, without severity
weighting or flooring. -/
theorem c9_amended_quality_score :
    (∀ errors warnings, calculateQualityScore errors warnings =
      specQualityScore errors warnings) ∧
    (∀ errors warnings, 0 ≤ calculateQualityScore errors warnings ∧
      calculateQualityScore errors warnings ≤ 100) ∧
    (∀ epub metadata, (validateEPUB epub metadata).quality_score =
      calculateQualityScore (validateEPUB epub metadata).errors
        (validateEPUB epub metadata).warnings) ∧
    (∀ pdf channel, (validatePDF pdf channel).quality_score =
      calculateQualityScore (validatePDF pdf channel).errors
        (validatePDF pdf channel).warnings) ∧
    (∀ cover channel, (validateCover cover channel).quality_score =
      calculateQualityScore (validateCover cover channel).errors
        (validateCover cover channel).warnings) ∧
    (∀ request, (validateFiles request).quality_score =
      100 - ((validateFiles request).errors.length : Int) * 10
        - ((validateFiles request).warnings.length : Int) * 5) := by
  refine ⟨fun errors warnings => rfl, fun errors warnings => ?_,
    fun epub metadata => rfl, fun pdf channel => rfl,
    fun cover channel => rfl, fun request => rfl⟩
  unfold calculateQualityScore
  constructor
  · exact le_max_left _ _
  · apply max_le (by norm_num)
    omega

/-! ## Claim C6: sentinel first entry -/

/-- Claim C6 (confirmed): for every input, the first archive entry of the
build is the `mimetype` sentinel, stored without compression, and every
other entry is compressed (DEFLATE). -/
theorem c6_mimetype_first_store :
    ∀ (chapters : List Chapter) (metadata : BookMetadata)
      (cover : Option CoverDesign) (uuids : Nat → String) (now : String),
      (buildEPUB chapters metadata cover uuids now).entries.head? =
        some { path := ZipPath.mimetype, compression := Compression.store } ∧
      ∀ e ∈ (buildEPUB chapters metadata cover uuids now).entries.tail,
        e.compression = Compression.deflate := by
  intro chapters metadata cover uuids now
  refine ⟨rfl, ?_⟩
  intro e he
  cases cover with
  | none =>
      simp only [buildEPUB, List.cons_append, List.nil_append, List.append_nil,
        List.tail_cons, List.mem_cons] at he
      rcases he with rfl | rfl | rfl | rfl | rfl | h
      · rfl
      · rfl
      · rfl
      · rfl
      · rfl
      · obtain ⟨i, _, rfl⟩ := List.mem_map.mp h
        rfl
  | some c =>
      simp only [buildEPUB, List.cons_append, List.nil_append,
        List.tail_cons, List.mem_cons] at he
      rcases he with rfl | rfl | rfl | rfl | rfl | rfl | rfl | h
      · rfl
      · rfl
      · rfl
      · rfl
      · rfl
      · rfl
      · rfl
      · obtain ⟨i, _, rfl⟩ := List.mem_map.mp h
        rfl

/-! ## Claim C2: packaging failure conditions -/

/-- Chapter list with a gap: ordinals 1 and 3, nothing at 2. -/
def c2Chapters : List Chapter :=
  [{ id := "c1", project_id := "p", chapter_number := 1, title := "One",
     content := "Alpha", word_count := 1 },
   { id := "c2", project_id := "p", chapter_number := 3, title := "Three",
     content := "Gamma", word_count := 1 }]

/-- Claim C2, counterexample.  The claim says `convertToEPUB` fails with a
structural error on gapped/duplicated ordinals and on the empty chapter
list.  In the code there is no such validation: the call succeeds both on
the gapped list [pos 1, pos 3] and on the empty list, returning an
artifact. -/
theorem c2_counterexample :
    ¬ chaptersContiguous c2Chapters ∧
    exceptIsOk (convertToEPUB c2Chapters mdSample none uuidSupplySample "now") = true ∧
    exceptIsOk (convertToEPUB [] mdSample none uuidSupplySample "now") = true := by
  refine ⟨by unfold chaptersContiguous; decide, rfl, rfl⟩

/-- Claim C2 (amended): `convertToEPUB` performs no validation of the chapter
list at all.  For every input — ordinals with gaps or duplicates, or the
empty list — the call succeeds, returning the built artifact, whose chapter
entries are numbered consecutively by list position (1, ..., n) regardless of
the `chapter_number` values. -/
theorem c2_amended_no_validation :
    ∀ (chapters : List Chapter) (metadata : BookMetadata)
      (cover : Option CoverDesign) (uuids : Nat → String) (now : String),
      convertToEPUB chapters metadata cover uuids now =
        Except.ok (buildEPUB chapters metadata cover uuids now) ∧
      chapterEntryNumbers (buildEPUB chapters metadata cover uuids now) =
        (List.range chapters.length).map (fun i => i + 1) := by
  intro chapters metadata cover uuids now
  refine ⟨rfl, ?_⟩
  unfold chapterEntryNumbers buildEPUB
  cases cover <;>
    simp only [List.cons_append, List.nil_append, List.filterMap_cons] <;>
    rw [List.filterMap_map] <;>
    exact filterMap_all_some _ (fun i => i + 1) _ (fun x _ => rfl)

/-! ## Claim C3: manifest contents -/

/-- Chapter list with a single chapter, used with no cover supplied. -/
def c3Chapters : List Chapter :=
  [{ id := "c1", project_id := "p", chapter_number := 1, title := "One",
     content := "Alpha", word_count := 1 }]

/-- Claim C3, counterexample.  The claim says the manifest entry count is
chapter count + 3, plus 2 iff a cover was supplied, and that no manifest
entry references a file absent from the archive.  With one chapter and no
cover, the manifest has 6 entries (not 4): `generateContentOPF`
unconditionally lists the cover-image item and the cover display page, and
both then reference files absent from the archive. -/
theorem c3_counterexample :
    (buildEPUB c3Chapters mdSample none uuidSupplySample "now").opf.manifest.length = 6 ∧
    c3Chapters.length + 3 = 4 ∧
    ZipPath.coverJPG ∈
      manifestHrefs (buildEPUB c3Chapters mdSample none uuidSupplySample "now").opf ∧
    ZipPath.coverJPG ∉
      entryPaths (buildEPUB c3Chapters mdSample none uuidSupplySample "now") ∧
    ZipPath.coverXHTML ∈
      manifestHrefs (buildEPUB c3Chapters mdSample none uuidSupplySample "now").opf ∧
    ZipPath.coverXHTML ∉
      entryPaths (buildEPUB c3Chapters mdSample none uuidSupplySample "now") := by
  refine ⟨rfl, rfl, ?_, ?_, ?_, ?_⟩ <;> decide

/-- Claim C3 (amended): the package manifest lists every chapter exactly
once plus the navigation document, the legacy table of contents, the
stylesheet, and — unconditionally, whether or not a cover was supplied — a
cover image entry and a cover display page; so the manifest entry count
equals chapter count + 5 always.  When a cover is supplied every manifest
entry references a file present in the archive; when no cover is supplied
the two cover entries reference files absent from the archive while every
other entry is present. -/
theorem c3_amended_manifest_contents :
    ∀ (chapters : List Chapter) (metadata : BookMetadata)
      (cover : Option CoverDesign) (uuids : Nat → String) (now : String),
      manifestHrefs (buildEPUB chapters metadata cover uuids now).opf =
        [ZipPath.navXHTML, ZipPath.tocNCX, ZipPath.coverJPG, ZipPath.coverXHTML,
         ZipPath.stylesCSS]
          ++ (List.range chapters.length).map (fun i => ZipPath.chapterXHTML (i + 1)) ∧
      (buildEPUB chapters metadata cover uuids now).opf.manifest.length
        = chapters.length + 5 ∧
      (manifestHrefs (buildEPUB chapters metadata cover uuids now).opf).Nodup ∧
      (cover.isSome = true →
        ∀ p ∈ manifestHrefs (buildEPUB chapters metadata cover uuids now).opf,
          p ∈ entryPaths (buildEPUB chapters metadata cover uuids now)) ∧
      (cover = none →
        ZipPath.coverJPG ∉ entryPaths (buildEPUB chapters metadata cover uuids now) ∧
        ZipPath.coverXHTML ∉ entryPaths (buildEPUB chapters metadata cover uuids now) ∧
        ∀ p ∈ manifestHrefs (buildEPUB chapters metadata cover uuids now).opf,
          p ≠ ZipPath.coverJPG → p ≠ ZipPath.coverXHTML →
            p ∈ entryPaths (buildEPUB chapters metadata cover uuids now)) := by
  intro chapters metadata cover uuids now
  have hm : manifestHrefs (buildEPUB chapters metadata cover uuids now).opf =
      [ZipPath.navXHTML, ZipPath.tocNCX, ZipPath.coverJPG, ZipPath.coverXHTML,
       ZipPath.stylesCSS]
        ++ (List.range chapters.length).map (fun i => ZipPath.chapterXHTML (i + 1)) := by
    simp only [manifestHrefs, buildEPUB, generateContentOPF, List.cons_append,
      List.nil_append, List.map_cons, List.map_map]
    rfl
  have he_some : ∀ c : CoverDesign, cover = some c →
      entryPaths (buildEPUB chapters metadata cover uuids now) =
        [ZipPath.mimetype, ZipPath.containerXML, ZipPath.contentOPF, ZipPath.tocNCX,
         ZipPath.navXHTML, ZipPath.stylesCSS, ZipPath.coverJPG, ZipPath.coverXHTML]
          ++ (List.range chapters.length).map (fun i => ZipPath.chapterXHTML (i + 1)) := by
    intro c hc
    subst hc
    simp only [entryPaths, buildEPUB, List.cons_append, List.nil_append,
      List.map_cons, List.map_map]
    rfl
  have he_none : cover = none →
      entryPaths (buildEPUB chapters metadata cover uuids now) =
        [ZipPath.mimetype, ZipPath.containerXML, ZipPath.contentOPF, ZipPath.tocNCX,
         ZipPath.navXHTML, ZipPath.stylesCSS]
          ++ (List.range chapters.length).map (fun i => ZipPath.chapterXHTML (i + 1)) := by
    intro hc
    subst hc
    simp only [entryPaths, buildEPUB, List.cons_append, List.nil_append,
      List.map_cons, List.map_map]
    rfl
  refine ⟨hm, ?_, ?_, ?_, ?_⟩
  · have hlen := congrArg List.length hm
    simp only [manifestHrefs, List.length_map, List.length_append,
      List.length_cons, List.length_nil, List.length_range] at hlen
    omega
  · rw [hm, List.nodup_append]
    refine ⟨by decide, ?_, ?_⟩
    · exact (List.nodup_range chapters.length).map
        (fun a b hab => by simpa using hab)
    · intro x hx hy
      obtain ⟨i, _, rfl⟩ := List.mem_map.mp hy
      simp at hx
  · intro hs p hp
    obtain ⟨c, hc⟩ := Option.isSome_iff_exists.mp hs
    rw [he_some c hc]
    rw [hm] at hp
    rcases List.mem_append.mp hp with h | h
    · fin_cases h <;> simp
    · obtain ⟨i, hi, rfl⟩ := List.mem_map.mp h
      exact List.mem_append.mpr (Or.inr (List.mem_map.mpr ⟨i, hi, rfl⟩))
  · intro hn
    refine ⟨?_, ?_, ?_⟩
    · rw [he_none hn]
      simp
    · rw [he_none hn]
      simp
    · intro p hp hne1 hne2
      rw [he_none hn]
      rw [hm] at hp
      rcases List.mem_append.mp hp with h | h
      · fin_cases h
        · simp
        · simp
        · exact absurd rfl hne1
        · exact absurd rfl hne2
        · simp
      · obtain ⟨i, hi, rfl⟩ := List.mem_map.mp h
        exact List.mem_append.mpr (Or.inr (List.mem_map.mpr ⟨i, hi, rfl⟩))

/-- Cover used by the C3 witness. -/
def c3Cover : CoverDesign :=
  { front_cover := 1000, width := 2560, height := 1600, format := CoverFormat.jpg,
    dpi := 300, color_mode := ColorProfile.RGB }

/-- Witness for C3 (amended): with a cover supplied, the cover image entry
referenced by the manifest is present in the archive; without one it is
absent. -/
theorem c3_witness :
    ZipPath.coverJPG ∈
      entryPaths (buildEPUB c3Chapters mdSample (some c3Cover) uuidSupplySample "now") ∧
    ZipPath.coverJPG ∉
      entryPaths (buildEPUB c3Chapters mdSample none uuidSupplySample "now") :=
  ⟨(c3_amended_manifest_contents c3Chapters mdSample (some c3Cover) uuidSupplySample
      "now").2.2.2.1 rfl ZipPath.coverJPG (by decide),
   ((c3_amended_manifest_contents c3Chapters mdSample none uuidSupplySample
      "now").2.2.2.2 rfl).1⟩

/-! ## Claim C4: spine ordering -/

/-- Claim C4 (confirmed): for every non-empty, contiguously-ordered chapter
list, the chapter ordering of the reflowable document's spine equals the
input chapters' ordinal order — the ordinals referenced by the spine, in
spine order, are exactly `chapters.map chapter_number = [1, ..., n]`, with
no reordering, no gaps and no duplicates. -/
theorem c4_spine_matches_input_order :
    ∀ (chapters : List Chapter) (metadata : BookMetadata)
      (cover : Option CoverDesign) (uuids : Nat → String) (now : String),
      chapters ≠ [] → chaptersContiguous chapters →
      spineChapterOrdinals chapters
          (buildEPUB chapters metadata cover uuids now).opf.spine
        = chapters.map (fun c => c.chapter_number) ∧
      spineChapterOrdinals chapters
          (buildEPUB chapters metadata cover uuids now).opf.spine
        = List.range' 1 chapters.length ∧
      (spineChapterOrdinals chapters
          (buildEPUB chapters metadata cover uuids now).opf.spine).Nodup := by
  intro chapters metadata cover uuids now hne hcont
  have hspine : (buildEPUB chapters metadata cover uuids now).opf.spine =
      SpineRef.cover ::
        (List.range chapters.length).map (fun i => SpineRef.chapter (i + 1)) := rfl
  have key : spineChapterOrdinals chapters
      (buildEPUB chapters metadata cover uuids now).opf.spine
      = List.range' 1 chapters.length := by
    rw [hspine]
    unfold spineChapterOrdinals
    simp only [List.filterMap_cons]
    rw [List.filterMap_map]
    have hall : ∀ x ∈ List.range chapters.length,
        ((fun r => match r with
          | SpineRef.cover => none
          | SpineRef.chapter n =>
              (chapters.get? (n - 1)).map (fun c => c.chapter_number)) ∘
          (fun i => SpineRef.chapter (i + 1))) x = some (1 + x) := by
      intro x hx
      have hx' : x < chapters.length := List.mem_range.mp hx
      have hmap := congrArg (fun l => l.get? x) hcont
      simp only [List.get?_eq_getElem?, List.getElem?_map] at hmap
      rw [List.getElem?_range' 1 1 hx'] at hmap
      simpa [Nat.add_sub_cancel] using hmap
    rw [filterMap_all_some _ (fun x => 1 + x) _ hall, List.range'_eq_map_range]
  refine ⟨?_, key, ?_⟩
  · rw [key]
    exact hcont.symm
  · rw [key]
    exact List.nodup_range' 1 chapters.length

/-- Chapters used by the C4 witness: two chapters with ordinals 1, 2. -/
def c4Chapters : List Chapter :=
  [{ id := "a", project_id := "p", chapter_number := 1, title := "One",
     content := "x", word_count := 1 },
   { id := "b", project_id := "p", chapter_number := 2, title := "Two",
     content := "y", word_count := 1 }]

/-- Witness for C4: the spine of a concrete two-chapter build lists the input
ordinals in order. -/
theorem c4_witness :
    spineChapterOrdinals c4Chapters
        (buildEPUB c4Chapters mdSample none uuidSupplySample "now").opf.spine
      = c4Chapters.map (fun c => c.chapter_number) :=
  (c4_spine_matches_input_order c4Chapters mdSample none uuidSupplySample "now"
    (by decide) (by unfold chaptersContiguous; decide)).1

/-! ## Claim C5: unique identifier -/

theorem string_append_cancel_left {s a b : String} (h : s ++ a = s ++ b) :
    a = b := by
  have hd := congrArg String.data h
  simp only [String.data_append] at hd
  exact congrArg String.mk (List.append_cancel_left hd)

/-- Claim C5, counterexample.  The claim says the identifier in the package
manifest (`dc:identifier`) and the uid referenced by the legacy table of
contents (`dtb:uid`) agree.  In the code `generateContentOPF` and
`generateTocNCX` each call `uuidv4()` independently, so the two identifiers
are distinct fresh draws: with the sample supply the manifest carries
urn:uuid:0 while the toc carries urn:uuid:1. -/
theorem c5_counterexample :
    (buildEPUB [] mdSample none uuidSupplySample "now").opf.metadataFields.head? =
      some ("dc:identifier", "urn:uuid:0") ∧
    (buildEPUB [] mdSample none uuidSupplySample "now").ncx.uid = "urn:uuid:1" ∧
    ("urn:uuid:1" : String) ≠ "urn:uuid:0" := by
  refine ⟨rfl, rfl, by decide⟩

/-- Claim C5 (amended): every build draws a fresh identifier that appears in
exactly one metadata field of the package manifest (the `dc:identifier`
field), but the legacy table of contents does not reference it: its
`dtb:uid` is a second, independently drawn fresh identifier, so for any
injective uuid supply the two identifiers differ.  The freshness of the
first draw is expressed by the hypothesis that no other metadata field value
equals it. -/
theorem c5_amended_identifier_fields :
    ∀ (chapters : List Chapter) (metadata : BookMetadata)
      (cover : Option CoverDesign) (uuids : Nat → String) (now : String),
      uuids 0 ≠ uuids 1 →
      escapeXML metadata.title ≠ "urn:uuid:" ++ uuids 0 →
      escapeXML metadata.author ≠ "urn:uuid:" ++ uuids 0 →
      metadata.language ≠ "urn:uuid:" ++ uuids 0 →
      escapeXML metadata.publisher ≠ "urn:uuid:" ++ uuids 0 →
      metadata.publication_date ≠ "urn:uuid:" ++ uuids 0 →
      escapeXML metadata.description ≠ "urn:uuid:" ++ uuids 0 →
      now ≠ "urn:uuid:" ++ uuids 0 →
      ((buildEPUB chapters metadata cover uuids now).opf.metadataFields.filter
          (fun p => p.2 == "urn:uuid:" ++ uuids 0)).length = 1 ∧
      (buildEPUB chapters metadata cover uuids now).ncx.uid =
        "urn:uuid:" ++ uuids 1 ∧
      (buildEPUB chapters metadata cover uuids now).ncx.uid ≠
        "urn:uuid:" ++ uuids 0 := by
  intro chapters metadata cover uuids now h01 h1 h2 h3 h4 h5 h6 h7
  refine ⟨?_, rfl, ?_⟩
  · have b0 : (("urn:uuid:" ++ uuids 0 : String) == "urn:uuid:" ++ uuids 0) = true :=
      beq_self_eq_true _
    have b1 : (escapeXML metadata.title == "urn:uuid:" ++ uuids 0) = false :=
      beq_eq_false_iff_ne.mpr h1
    have b2 : (escapeXML metadata.author == "urn:uuid:" ++ uuids 0) = false :=
      beq_eq_false_iff_ne.mpr h2
    have b3 : (metadata.language == "urn:uuid:" ++ uuids 0) = false :=
      beq_eq_false_iff_ne.mpr h3
    have b4 : (escapeXML metadata.publisher == "urn:uuid:" ++ uuids 0) = false :=
      beq_eq_false_iff_ne.mpr h4
    have b5 : (metadata.publication_date == "urn:uuid:" ++ uuids 0) = false :=
      beq_eq_false_iff_ne.mpr h5
    have b6 : (escapeXML metadata.description == "urn:uuid:" ++ uuids 0) = false :=
      beq_eq_false_iff_ne.mpr h6
    have b7 : (now == "urn:uuid:" ++ uuids 0) = false :=
      beq_eq_false_iff_ne.mpr h7
    simp [buildEPUB, generateContentOPF, List.filter_cons, b0, b1, b2, b3, b4,
      b5, b6, b7]
  · intro heq
    have heq' : ("urn:uuid:" : String) ++ uuids 1 = ("urn:uuid:" : String) ++ uuids 0 :=
      heq
    exact h01 (string_append_cancel_left heq').symm

/-- Witness for C5 (amended): at the sample inputs the identifier occurs in
exactly one manifest metadata field and differs from the toc uid. -/
theorem c5_witness :
    ((buildEPUB [] mdSample none uuidSupplySample "now").opf.metadataFields.filter
        (fun p => p.2 == "urn:uuid:" ++ uuidSupplySample 0)).length = 1 ∧
    (buildEPUB [] mdSample none uuidSupplySample "now").ncx.uid =
      "urn:uuid:" ++ uuidSupplySample 1 ∧
    (buildEPUB [] mdSample none uuidSupplySample "now").ncx.uid ≠
      "urn:uuid:" ++ uuidSupplySample 0 :=
  c5_amended_identifier_fields [] mdSample none uuidSupplySample "now"
    (by decide) (by decide) (by decide) (by decide) (by decide) (by decide)
    (by decide) (by decide)

theorem exceptIsOk_ite_error {α : Type} {c : Prop} [Decidable c] {m : String}
    {v : α} :
    exceptIsOk (if c then (Except.error m : Except String α) else Except.ok v)
      = false ↔ c := by
  split <;> simp [exceptIsOk, *]

/-! ## Claim C1: quality-validation phase -/

/-- PDF of 600 MB: within amazon_kdp's 650 MB limit, above ingram_spark's
500 MB limit. -/
def c1PDF : PDFFile :=
  { size := 600 * 1024 * 1024, trim_size := "6x9", page_count := 100,
    bleed := true, color_profile := ColorProfile.CMYK }

/-- Claim C1, counterexample.  The claim says the phase evaluates every
artifact against every destination in the requested distribution_channels
list.  With requested channels = [amazon_kdp] and a single 600 MB PDF
artifact, the artifact passes amazon_kdp's requirements — so under the claim
the phase would succeed — yet the phase throws, because the code actually
validates the PDF against the fixed channel ingram_spark (not requested),
whose 500 MB limit produces a critical diagnostic. -/
theorem c1_counterexample :
    (validatePDF c1PDF DistributionChannel.amazon_kdp).valid = true ∧
    (validatePDF c1PDF DistributionChannel.ingram_spark).valid = false ∧
    qualityValidationHandler { epub := none, mobi := none, pdf := some c1PDF }
        none mdSample =
      Except.error "Quality validation failed with critical errors" := by
  refine ⟨by decide, by decide, rfl⟩

/-- Claim C1 (amended): the quality-validation phase does not consult the
requested distribution channels.  It evaluates the EPUB against the
optimized metadata, the PDF against the fixed channel ingram_spark, and the
cover against the fixed channel amazon_kdp (the MOBI artifact is never
validated), and it throws exactly when one of these fixed evaluations yields
a non-passing verdict — aborting the pipeline before any destination
submission. -/
theorem c1_amended_fixed_channel_validation :
    ∀ (fo : FormatOutputs) (coverDesign : Option CoverDesign)
      (metadata : BookMetadata),
      exceptIsOk (qualityValidationHandler fo coverDesign metadata) = false ↔
        ((∃ epub, fo.epub = some epub ∧
            (validateEPUB epub metadata).valid = false) ∨
         (∃ pdf, fo.pdf = some pdf ∧
            (validatePDF pdf DistributionChannel.ingram_spark).valid = false) ∨
         (∃ cover, coverDesign = some cover ∧
            (validateCover cover DistributionChannel.amazon_kdp).valid = false)) := by
  intro fo coverDesign metadata
  obtain ⟨oe, om, op⟩ := fo
  unfold qualityValidationHandler
  cases oe <;> cases op <;> cases coverDesign <;>
    simp only [List.nil_append, List.append_nil, List.cons_append, List.any_cons,
      List.any_nil, Bool.not_eq_true', Bool.or_eq_true, Bool.or_false] <;>
    rw [exceptIsOk_ite_error] <;>
    simp

/-! ## Claim C7: per-destination submission failures -/

/-- Submission outcomes in which the amazon_kdp adapter throws (an I/O error
wrapped by its catch block) while every other adapter returns a result. -/
def c7SubmitOutcomes : DistributionChannel → Except String SubmissionResult :=
  fun channel =>
    match channel with
    | DistributionChannel.amazon_kdp =>
        Except.error "KDP submission failed: disk full"
    | _ =>
        Except.ok
          { submission_id := "s", platform := DistributionChannel.ingram_spark,
            status := SubmissionStatus.ready_for_upload, instructions := "",
            upload_url := none, estimated_review_time := none }

/-- Claim C7, counterexample.  The claim says a failure in one destination
submission is recorded as that destination's result and does not prevent the
other destinations from being attempted.  With requested channels
[amazon_kdp, ingram_spark] and the amazon_kdp adapter throwing, the whole
phase fails with the thrown error: no per-destination result is recorded and
ingram_spark — whose submission would have succeeded — is never reached. -/
theorem c7_counterexample :
    platformSubmissionHandler
        [DistributionChannel.amazon_kdp, DistributionChannel.ingram_spark]
        c7SubmitOutcomes =
      Except.error "KDP submission failed: disk full" ∧
    exceptIsOk (c7SubmitOutcomes DistributionChannel.ingram_spark) = true :=
  ⟨rfl, rfl⟩

/-- Claim C7 (amended): only failures that an adapter itself converts into an
error-status result are collected per-destination: when
`AmazonKDPPublisher.validateFiles` reports a critical diagnostic,
`submitBook` returns (not throws) a result with status error, so the
submission loop records it and continues.  An error actually thrown by an
adapter, however, fails the phase as a whole: the loop aborts with that
error, later channels are not attempted, and earlier successful results are
discarded. -/
theorem c7_amended_partial_collection :
    (∀ (request : SubmissionRequest) (ioError : Option String),
      (validateFiles request).errors.filter
          (fun e => e.severity == Severity.critical) ≠ [] →
      ∃ r, submitBook request ioError = Except.ok r ∧
        r.status = SubmissionStatus.error) ∧
    (∀ (pre : List DistributionChannel) (c : DistributionChannel)
      (post : List DistributionChannel)
      (submit : DistributionChannel → Except String SubmissionResult)
      (msg : String),
      (∀ d ∈ pre, publishersHave d = true → exceptIsOk (submit d) = true) →
      publishersHave c = true → submit c = Except.error msg →
      platformSubmissionHandler (pre ++ c :: post) submit = Except.error msg) := by
  constructor
  · intro request ioError h
    rcases hfilt : (validateFiles request).errors.filter
        (fun e => e.severity == Severity.critical) with _ | ⟨e0, rest⟩
    · exact absurd hfilt h
    · have hvalid : (validateFiles request).valid = false := by
        have hv0 : (validateFiles request).valid =
            (((validateFiles request).errors.filter
              (fun e => e.severity == Severity.critical)).length == 0) := rfl
        rw [hv0, hfilt]
        rfl
      refine ⟨{ submission_id := "", platform := DistributionChannel.amazon_kdp,
                status := SubmissionStatus.error,
                instructions := "Validation failed: " ++ e0.message,
                upload_url := none, estimated_review_time := none }, ?_, rfl⟩
      simp only [submitBook]
      rw [hvalid, hfilt]
      simp
  · intro pre c post submit msg hpre hc hsub
    induction pre with
    | nil =>
        simp only [List.nil_append, platformSubmissionHandler, hc, if_true, hsub]
    | cons d rest ih =>
        have hrest : platformSubmissionHandler (rest ++ c :: post) submit =
            Except.error msg :=
          ih (fun x hx => hpre x (List.mem_cons_of_mem d hx))
        rcases hd : publishersHave d with _ | _
        · simpa [platformSubmissionHandler, hd] using hrest
        · have hdok := hpre d (List.mem_cons_self d rest) hd
          rcases hsd : submit d with e | r
          · rw [hsd] at hdok
            simp [exceptIsOk] at hdok
          · simp [platformSubmissionHandler, hd, hsd, hrest, Except.map]

/-- Request with an empty cover buffer: one critical diagnostic from
validateFiles. -/
def c7Request : SubmissionRequest :=
  { isbn := "", title := "T", author := "A", description := "", categories := [],
    keywords := [], cover := 0, manuscript := 1000, price := 10,
    territories := ["US"], drm_enabled := false }

/-- Witness for C7 (amended): a validation failure is returned as an
error-status result; a thrown failure aborts the phase after a successful
earlier channel. -/
theorem c7_witness :
    (∃ r, submitBook c7Request none = Except.ok r ∧
      r.status = SubmissionStatus.error) ∧
    platformSubmissionHandler
        ([DistributionChannel.draft2digital] ++ DistributionChannel.amazon_kdp :: [])
        c7SubmitOutcomes =
      Except.error "KDP submission failed: disk full" :=
  ⟨c7_amended_partial_collection.1 c7Request none (by decide),
   c7_amended_partial_collection.2 [DistributionChannel.draft2digital]
     DistributionChannel.amazon_kdp [] c7SubmitOutcomes
     "KDP submission failed: disk full" (by decide) (by decide) rfl⟩

/-! ## Claim C10: channels without a registered publisher -/

theorem platformSubmissionHandler_ok
    (channels : List DistributionChannel)
    (submit : DistributionChannel → Except String SubmissionResult)
    (h : ∀ ch ∈ channels, publishersHave ch = true →
      exceptIsOk (submit ch) = true) :
    ∃ rs, platformSubmissionHandler channels submit = Except.ok rs := by
  induction channels with
  | nil => exact ⟨[], rfl⟩
  | cons c rest ih =>
      obtain ⟨rs, hrs⟩ := ih (fun x hx => h x (List.mem_cons_of_mem c hx))
      rcases hc : publishersHave c with _ | _
      · exact ⟨rs, by simp [platformSubmissionHandler, hc, hrs]⟩
      · have hok := h c (List.mem_cons_self c rest) hc
        rcases hsc : submit c with msg | r
        · rw [hsc] at hok
          simp [exceptIsOk] at hok
        · exact ⟨r :: rs,
            by simp [platformSubmissionHandler, hc, hsc, hrs, Except.map]⟩

/-- Claim C10 (confirmed): a requested channel with no registered publisher
adapter (any channel other than amazon_kdp, ingram_spark, draft2digital,
findaway_voices) is skipped by the destination-submission phase — the phase
behaves exactly as if the channel had not been requested, attempting no
submission and raising no error — and when the rest of the pipeline
succeeds, the publish call completes with project status published. -/
theorem c10_unregistered_channels_skipped :
    (∀ c, publishersHave c = false →
      ∀ (pre post : List DistributionChannel)
        (submit : DistributionChannel → Except String SubmissionResult),
        platformSubmissionHandler (pre ++ c :: post) submit =
          platformSubmissionHandler (pre ++ post) submit) ∧
    (∀ (params : PublishParams) (collab : CollabOutcomes) (cfg : CostsConfig)
      (fo : FormatOutputs) (cd : CoverDesign) (m : BookMetadata)
      (vs : List ValidationResult),
      collab.isbn = Except.ok () → collab.copyright = Except.ok () →
      collab.lccn = Except.ok () → collab.formatConv = Except.ok fo →
      collab.cover = Except.ok cd → collab.optimize = Except.ok m →
      qualityValidationHandler fo (some cd) m = Except.ok vs →
      (∀ ch ∈ params.distribution_channels, publishersHave ch = true →
        exceptIsOk (collab.submit ch) = true) →
      ∃ p, (publishBook params collab cfg).2 = Except.ok p ∧
        p.status = ProjectStatus.published) := by
  constructor
  · intro c hc pre post submit
    induction pre with
    | nil => simp [platformSubmissionHandler, hc]
    | cons d rest ih =>
        simp only [List.cons_append, platformSubmissionHandler, List.append_eq, ih]
  · intro params collab cfg fo cd m vs h1 h2 h3 h4 h5 h6 h7 h8
    obtain ⟨rs, hrs⟩ :=
      platformSubmissionHandler_ok params.distribution_channels collab.submit h8
    refine ⟨{ id := "project", prose_project_id := params.project_id,
              title := params.metadata.title, author := params.metadata.author,
              formats := params.formats,
              distribution_channels := params.distribution_channels,
              status := ProjectStatus.published,
              total_cost := (calculateCosts cfg params.formats).total }, ?_, rfl⟩
    simp only [publishBook, runPhase, h1, h2, h3, h4, h5, h6, h7, hrs]

/-- Parameters for the C10 witness: requested channel kobo only, which has
no registered publisher. -/
def c10Params : PublishParams :=
  { project_id := "p", title := "T", author := "A", chapters := [],
    metadata := mdSample, formats := [PublishingFormat.ebook],
    distribution_channels := [DistributionChannel.kobo] }

def c10Cover : CoverDesign :=
  { front_cover := 1, width := 2560, height := 1600, format := CoverFormat.jpg,
    dpi := 300, color_mode := ColorProfile.RGB }

def c10Collab : CollabOutcomes :=
  { isbn := Except.ok (), copyright := Except.ok (), lccn := Except.ok (),
    formatConv := Except.ok { epub := none, mobi := none, pdf := none },
    cover := Except.ok c10Cover, optimize := Except.ok mdSample,
    submit := fun _ =>
      Except.ok
        { submission_id := "s", platform := DistributionChannel.amazon_kdp,
          status := SubmissionStatus.ready_for_upload, instructions := "",
          upload_url := none, estimated_review_time := none } }

def c10Cfg : CostsConfig :=
  { isbn_single := 125, copyright_registration := 65, lccn := 0,
    cover_generation := 2/5 }

/-- Witness for C10: with kobo as the only requested channel, the phase
behaves as with no channels, and the publish call completes published. -/
theorem c10_witness :
    platformSubmissionHandler
        ([] ++ DistributionChannel.kobo :: []) c10Collab.submit =
      platformSubmissionHandler ([] ++ []) c10Collab.submit ∧
    ∃ p, (publishBook c10Params c10Collab c10Cfg).2 = Except.ok p ∧
      p.status = ProjectStatus.published :=
  ⟨c10_unregistered_channels_skipped.1 DistributionChannel.kobo rfl [] []
      c10Collab.submit,
   c10_unregistered_channels_skipped.2 c10Params c10Collab c10Cfg
     { epub := none, mobi := none, pdf := none } c10Cover mdSample
     [validateCover c10Cover DistributionChannel.amazon_kdp]
     rfl rfl rfl rfl rfl rfl rfl (by decide)⟩

/-! ## Claim C8: failure handling in runPhase / publishBook -/

/-- Claim C8 (confirmed): whenever a phase body throws during a publish call
(equivalently, whenever the call returns an error), the failing phase's
record is the last one, marked failed and carrying the message; an error
event with that phase and message was emitted; phases before it completed
and are untouched (no rollback); no record exists for any later phase (so
none reaches completed); and the error is re-raised to the caller wrapped as
"Publishing failed at <phase>: <message>". -/
theorem c8_phase_failure_aborts :
    ∀ (params : PublishParams) (collab : CollabOutcomes) (cfg : CostsConfig)
      (e : String),
      (publishBook params collab cfg).2 = Except.error e →
      ∃ k p m,
        phaseOrder.get? k = some p ∧
        ((publishBook params collab cfg).1.phases.map (fun r => r.phase)) =
          phaseOrder.take (k + 1) ∧
        ((publishBook params collab cfg).1.phases.map (fun r => r.status)) =
          List.replicate k PhaseStatus.completed ++ [PhaseStatus.failed] ∧
        (publishBook params collab cfg).1.phases.getLast? =
          some { phase := p, status := PhaseStatus.failed, progress := 0,
                 message := some m } ∧
        Event.error p m ∈ (publishBook params collab cfg).1.events ∧
        e = "Publishing failed at " ++ phaseNameStr p ++ ": " ++ m := by
  intro params collab cfg e h
  obtain ⟨ci, cc, cl, cf, cv, co, cs⟩ := collab
  cases hci : ci with
  | error m1 =>
      simp only [publishBook, runPhase, hci] at h ⊢
      refine ⟨0, PhaseName.isbn_acquisition, m1, rfl, rfl, rfl, rfl, by simp, ?_⟩
      injection h with hh
      exact hh.symm
  | ok u1 =>
  cases hcc : cc with
  | error m2 =>
      simp only [publishBook, runPhase, hci, hcc] at h ⊢
      refine ⟨1, PhaseName.copyright_registration, m2, rfl, rfl, rfl, rfl,
        by simp, ?_⟩
      injection h with hh
      exact hh.symm
  | ok u2 =>
  cases hcl : cl with
  | error m3 =>
      simp only [publishBook, runPhase, hci, hcc, hcl] at h ⊢
      refine ⟨2, PhaseName.lccn_application, m3, rfl, rfl, rfl, rfl,
        by simp, ?_⟩
      injection h with hh
      exact hh.symm
  | ok u3 =>
  cases hcf : cf with
  | error m4 =>
      simp only [publishBook, runPhase, hci, hcc, hcl, hcf] at h ⊢
      refine ⟨3, PhaseName.format_conversion, m4, rfl, rfl, rfl, rfl,
        by simp, ?_⟩
      injection h with hh
      exact hh.symm
  | ok fo =>
  cases hcv : cv with
  | error m5 =>
      simp only [publishBook, runPhase, hci, hcc, hcl, hcf, hcv] at h ⊢
      refine ⟨4, PhaseName.cover_generation, m5, rfl, rfl, rfl, rfl,
        by simp, ?_⟩
      injection h with hh
      exact hh.symm
  | ok cd =>
  cases hco : co with
  | error m6 =>
      simp only [publishBook, runPhase, hci, hcc, hcl, hcf, hcv, hco] at h ⊢
      refine ⟨5, PhaseName.metadata_optimization, m6, rfl, rfl, rfl, rfl,
        by simp, ?_⟩
      injection h with hh
      exact hh.symm
  | ok om =>
  cases h7 : qualityValidationHandler fo (some cd) om with
  | error m7 =>
      simp only [publishBook, runPhase, hci, hcc, hcl, hcf, hcv, hco, h7] at h ⊢
      refine ⟨6, PhaseName.quality_validation, m7, rfl, rfl, rfl, rfl,
        by simp, ?_⟩
      injection h with hh
      exact hh.symm
  | ok vs =>
  cases h8 : platformSubmissionHandler params.distribution_channels cs with
  | error m8 =>
      simp only [publishBook, runPhase, hci, hcc, hcl, hcf, hcv, hco, h7, h8]
        at h ⊢
      refine ⟨7, PhaseName.platform_submission, m8, rfl, rfl, rfl, rfl,
        by simp, ?_⟩
      injection h with hh
      exact hh.symm
  | ok rs =>
      simp only [publishBook, runPhase, hci, hcc, hcl, hcf, hcv, hco, h7, h8]
        at h
      exact Except.noConfusion h

/-- Collaborator outcomes for the C8 witness: the identifier source is
exhausted during phase 1. -/
def c8Collab : CollabOutcomes :=
  { isbn := Except.error "ISBN pool exhausted", copyright := Except.ok (),
    lccn := Except.ok (),
    formatConv := Except.ok { epub := none, mobi := none, pdf := none },
    cover := Except.ok c10Cover, optimize := Except.ok mdSample,
    submit := fun _ =>
      Except.ok
        { submission_id := "s", platform := DistributionChannel.amazon_kdp,
          status := SubmissionStatus.ready_for_upload, instructions := "",
          upload_url := none, estimated_review_time := none } }

def c8Params : PublishParams :=
  { project_id := "p", title := "T", author := "A", chapters := [],
    metadata := mdSample, formats := [PublishingFormat.ebook],
    distribution_channels := [DistributionChannel.amazon_kdp] }

/-- Witness for C8: identifier exhaustion during phase 1 terminates the call
with the wrapped error; the single failed record and the error event are
exhibited through the theorem. -/
theorem c8_witness :
    ∃ k p m,
      phaseOrder.get? k = some p ∧
      ((publishBook c8Params c8Collab c10Cfg).1.phases.map (fun r => r.phase)) =
        phaseOrder.take (k + 1) ∧
      ((publishBook c8Params c8Collab c10Cfg).1.phases.map (fun r => r.status)) =
        List.replicate k PhaseStatus.completed ++ [PhaseStatus.failed] ∧
      (publishBook c8Params c8Collab c10Cfg).1.phases.getLast? =
        some { phase := p, status := PhaseStatus.failed, progress := 0,
               message := some m } ∧
      Event.error p m ∈ (publishBook c8Params c8Collab c10Cfg).1.events ∧
      "Publishing failed at isbn_acquisition: ISBN pool exhausted" =
        "Publishing failed at " ++ phaseNameStr p ++ ": " ++ m :=
  c8_phase_failure_aborts c8Params c8Collab c10Cfg
    "Publishing failed at isbn_acquisition: ISBN pool exhausted" rfl

end PublisherAI
